import Mathlib

/-!
Verification development for the `agents.ai_python` repository.

The development shallowly embeds the two core parts of the system:

* the Reddit-scout agent (`src/agent_package/reddit_scout.py`): its workflow
  state, the `search` / `analyze` / `check_conditions` nodes, the conditional
  router `should_continue`, the graph loop driven by the workflow engine, and
  the harness helpers `get_initial_state` / `get_result`;
* the dynamic agent loader (`src/agent_loader.py`): the MongoDB-backed store,
  the per-agent cache directory, `_fetch_and_save_agent` and
  `get_agent_module`.

External network effects (Reddit search results, fetched comments, the store
contents) are modelled as oracle parameters: each theorem quantifies over
every possible sequence of responses.  Python floats carrying the simple
decimal scores of `analyze_intent` are modelled as exact rationals, and
Python ints as `Int`.
-/

/-! ## Data model of the Reddit scout agent (src/agent_package/reddit_scout.py) -/

/-- A Reddit thread as returned by `search_reddit`: the dict
`{id, url, title, subreddit}` (the non-serializable `submission_obj` is
popped before the list is returned). -/
structure Thread where
  id : String
  url : String
  title : String
  subreddit : String
deriving Repr, DecidableEq

/-- A comment as returned by `get_thread_comments`: the dict
`{author, text, thread_url}`. -/
structure Comment where
  author : String
  text : String
  thread_url : String
deriving Repr, DecidableEq

/-- A candidate dict as built inside `analyze_node`. -/
structure Candidate where
  username : String
  intent_score : Rat
  subreddit : String
  thread_title : String
  evidence : String
  thread_url : String
deriving Repr, DecidableEq

/-- The `reddit_creds` dict stored in the state by `get_initial_state`. -/
structure RedditCreds where
  client_id : String
  client_secret : String
  user_agent : String
deriving Repr, DecidableEq

/-- The `AgentState` TypedDict of `reddit_scout.py`. -/
structure AgentState where
  query : String
  target_subreddits : List String
  max_users : Int
  min_intent_score : Rat
  reddit_creds : RedditCreds
  visited_threads : List String
  candidates : List Candidate
  threads_to_process : List Thread
  iteration : Int
  is_complete : Bool
deriving Repr, DecidableEq

/-- The `AgentEnv` pydantic model (defaults as in the source). -/
structure AgentEnv where
  reddit_client_id : String
  reddit_client_secret : String
  reddit_user_agent : String := "python:agents-ai-python:v0.1.0 (by /u/developer)"
deriving Repr, DecidableEq

/-- The `AgentInputs` pydantic model (defaults as in the source). -/
structure AgentInputs where
  query : String
  target_subreddits : List String
  max_users : Int := 5
  min_intent_score : Rat := mkRat 7 10
deriving Repr, DecidableEq

/-! ## Domain logic: `analyze_intent` -/

/-- Python's `phrase in text` substring test, on the underlying character
lists. -/
def strContains (text phrase : String) : Bool :=
  (List.range (text.toList.length + 1)).any
    (fun i => (text.toList.drop i).take phrase.toList.length == phrase.toList)

/-- Python's `text.lower()`, character by character. -/
def strToLower (s : String) : String :=
  String.mk (s.toList.map Char.toLower)

/-- Python's `s.endswith(suffix)`, on the underlying character lists. -/
def strEndsWith (s suffix : String) : Bool :=
  suffix.toList.length ≤ s.toList.length &&
    s.toList.drop (s.toList.length - suffix.toList.length) == suffix.toList

/-- The phrase list of the 0.95 branch of `analyze_intent`. -/
def phrasesPay : List String :=
  ["i\x27d pay", "willing to pay", "happily pay", "don\x27t mind paying"]

/-- The phrase list of the 0.80 branch of `analyze_intent`
(`reddit_scout.py` version, which includes "pricing"). -/
def phrasesConsider : List String :=
  ["paid alternative", "free apps aren\x27t", "invest in", "subscription",
   "worth it", "pricing"]

/-- `analyze_intent(text)`: keyword heuristic scoring payment intent.
Scores are the exact decimals of the source, as rationals. -/
def analyze_intent (text : String) : Rat :=
  let text_lower := strToLower text
  if phrasesPay.any (fun p => strContains text_lower p) then mkRat 95 100
  else if phrasesConsider.any (fun p => strContains text_lower p) then mkRat 80 100
  else mkRat 3 10

/-! ## Workflow nodes

Each node returns the partial-state update dict of the source; the engine
merges it into the running state by shallow field overwrite (`applySearch`,
`applyAnalyze`, `applyCheck` below mirror langgraph's merge for the exact
keys each node returns). -/

/-- The update dict returned by `search_node`:
`{"threads_to_process": ..., "iteration": ...}`. -/
structure SearchUpdate where
  threads_to_process : List Thread
  iteration : Int
deriving Repr, DecidableEq

/-- The update dict returned by `analyze_node`:
`{"visited_threads": ..., "candidates": ..., "threads_to_process": []}`. -/
structure AnalyzeUpdate where
  visited_threads : List String
  candidates : List Candidate
  threads_to_process : List Thread
deriving Repr, DecidableEq

/-- The update dict returned by `check_conditions_node`:
`{"is_complete": ...}`. -/
structure CheckUpdate where
  is_complete : Bool
deriving Repr, DecidableEq

/-- An oracle standing for `search_reddit` through the PRAW client: given the
query and a subreddit name it returns the threads found (the source catches
all search errors inside the tool, degrading to fewer threads, so every
response list is reachable). -/
def SearchOracle : Type := String → String → List Thread

/-- An oracle standing for `get_thread_comments`: given a thread id it
returns the fetched comments (errors degrade to an empty list in the
source, so every response list is reachable). -/
def CommentOracle : Type := String → List Comment

/-- `search_node(state)`: collects threads from every target subreddit and
bumps the iteration counter. -/
def search_node (searchFn : SearchOracle) (s : AgentState) : SearchUpdate :=
  { threads_to_process :=
      s.target_subreddits.flatMap (fun sub => searchFn s.query sub)
    iteration := s.iteration + 1 }

/-- The body of the inner `for comment in comments` loop of `analyze_node`:
score the comment; if it reaches the threshold and its author has no
candidate entry yet, append a new candidate. -/
def processComment (min_score : Rat) (t : Thread) (cands : List Candidate)
    (c : Comment) : List Candidate :=
  let score := analyze_intent c.text
  if min_score ≤ score then
    if cands.any (fun cd => cd.username == c.author) then cands
    else
      cands ++ [{ username := c.author, intent_score := score,
                  subreddit := t.subreddit, thread_title := t.title,
                  evidence := c.text, thread_url := t.url }]
  else cands

/-- The body of the outer `for thread in threads` loop of `analyze_node`:
skip already-visited urls, otherwise mark visited, fetch the comments and
fold the comment loop over them.  The accumulator carries the visited set
(as a duplicate-free list) and the candidate list. -/
def processThread (fetch : CommentOracle) (min_score : Rat)
    (acc : List String × List Candidate) (t : Thread) :
    List String × List Candidate :=
  if t.url ∈ acc.1 then acc
  else
    (acc.1 ++ [t.url],
     (fetch t.id).foldl (processComment min_score t) acc.2)

/-- `analyze_node(state)`: processes every queued thread, extends the
visited set and the candidate list, and clears the queue.  Python's
`set(state["visited_threads"])` is modelled by `List.dedup` (same
membership, same cardinality). -/
def analyze_node (fetch : CommentOracle) (s : AgentState) : AnalyzeUpdate :=
  let start : List String × List Candidate :=
    (s.visited_threads.dedup, s.candidates)
  let res := s.threads_to_process.foldl
    (processThread fetch s.min_intent_score) start
  { visited_threads := res.1, candidates := res.2, threads_to_process := [] }

/-- `check_conditions_node(state)`: complete once the candidate count
reaches `max_users`, or once `iteration > 3` (the hard safety bound). -/
def check_conditions_node (s : AgentState) : CheckUpdate :=
  if s.max_users ≤ (s.candidates.length : Int) then { is_complete := true }
  else if 3 < s.iteration then { is_complete := true }
  else { is_complete := false }

/-- `should_continue(state)`: the conditional router. -/
def should_continue (s : AgentState) : String :=
  if s.is_complete then "end" else "continue"

/-- Shallow merge of a `search_node` update into the state. -/
def applySearch (s : AgentState) (u : SearchUpdate) : AgentState :=
  { s with threads_to_process := u.threads_to_process,
           iteration := u.iteration }

/-- Shallow merge of an `analyze_node` update into the state. -/
def applyAnalyze (s : AgentState) (u : AnalyzeUpdate) : AgentState :=
  { s with visited_threads := u.visited_threads,
           candidates := u.candidates,
           threads_to_process := u.threads_to_process }

/-- Shallow merge of a `check_conditions_node` update into the state. -/
def applyCheck (s : AgentState) (u : CheckUpdate) : AgentState :=
  { s with is_complete := u.is_complete }

/-! ## The compiled graph

`build_graph` wires `search → analyze → check_conditions` with a
conditional edge `check_conditions → {continue: search, end: END}` and
entry point `search`.  Running the compiled graph is therefore the loop
below: one round executes the three nodes in order, then the router either
ends the run or goes back to `search`.  Oracles are indexed by the round
number so that every round may see different network responses. -/

/-- Per-round oracles for the two network-calling nodes. -/
def Oracles : Type := Nat → SearchOracle × CommentOracle

/-- One `search → analyze → check_conditions` round of the compiled graph. -/
def runRound (searchFn : SearchOracle) (fetch : CommentOracle)
    (s : AgentState) : AgentState :=
  let s1 := applySearch s (search_node searchFn s)
  let s2 := applyAnalyze s1 (analyze_node fetch s1)
  applyCheck s2 (check_conditions_node s2)

/-- The engine loop: run rounds until `should_continue` routes to `END`.
`fuel` bounds the number of rounds the model is willing to execute;
`none` means the loop was still running after `fuel` rounds. -/
def runLoop (oracles : Oracles) : Nat → Nat → AgentState → Option AgentState
  | 0, _, _ => none
  | fuel + 1, round, s =>
      let s1 := runRound (oracles round).1 (oracles round).2 s
      if should_continue s1 = "end" then some s1
      else runLoop oracles fuel (round + 1) s1

/-! ## Harness helpers -/

/-- `get_initial_state(env, inputs)`. -/
def get_initial_state (env : AgentEnv) (inputs : AgentInputs) : AgentState :=
  { query := inputs.query
    target_subreddits := inputs.target_subreddits
    max_users := inputs.max_users
    min_intent_score := inputs.min_intent_score
    reddit_creds :=
      { client_id := env.reddit_client_id
        client_secret := env.reddit_client_secret
        user_agent := env.reddit_user_agent }
    visited_threads := []
    candidates := []
    threads_to_process := []
    iteration := 1
    is_complete := false }

/-- The `metadata` sub-dict of `get_result`. -/
structure ResultMetadata where
  iterations : Int
  visited_threads_count : Nat
deriving Repr, DecidableEq

/-- The result dict of `get_result`. -/
structure AgentResult where
  status : String
  candidates : List Candidate
  total_count : Nat
  metadata : ResultMetadata
deriving Repr, DecidableEq

/-- `get_result(state)`: formats the final state. -/
def get_result (s : AgentState) : AgentResult :=
  { status := "success"
    candidates := s.candidates
    total_count := s.candidates.length
    metadata :=
      { iterations := s.iteration - 1
        visited_threads_count := s.visited_threads.length } }

/-! ## The dynamic agent loader (src/agent_loader.py)

The MongoDB `agents` collection is modelled as a map from `agent_id` to the
optional `files` array of the matching document; the flag `available`
models whether the backing connection can be established at all (in the
source, `MONGODB_URI` unset makes the `db` property raise before any
filesystem access).  The cache is a map from `agent_id` to the optional
contents of its directory.  Every error the loader raises happens *before*
any filesystem mutation or aborts the call, so the model returns the
post-call cache alongside the outcome. -/

/-- One `{name, content}` element of a stored agent document's `files`
array, equally a file in a cache directory. -/
structure FileData where
  name : String
  content : String
deriving Repr, DecidableEq

/-- The MongoDB store: `agents.find_one({"agent_id": id})` yields the
document's `files` array, or `none` when no document matches.  `available`
is false when the connection cannot be established (`MONGODB_URI` unset). -/
structure Store where
  available : Bool
  agents : String → Option (List FileData)

/-- The cache filesystem: directory contents per agent id (`none` =
directory absent). -/
def Cache : Type := String → Option (List FileData)

/-- The errors `get_agent_module` can raise. -/
inductive LoaderError where
  | storeUnavailable
  | notFound (agent_id : String)
  | descriptorMissing (agent_id : String)
  | noScript (agent_id : String)
deriving Repr, DecidableEq

/-- Writing one file into a directory: `open(path, "w")` overwrites a file
of the same name, otherwise adds a new one. -/
def writeFile (dir : List FileData) (f : FileData) : List FileData :=
  if dir.any (fun g => g.name == f.name) then
    dir.map (fun g => if g.name == f.name then f else g)
  else dir ++ [f]

/-- Contents of a freshly recreated directory after writing every file of
the fetched artifact set in order. -/
def writeFiles (files : List FileData) : List FileData :=
  files.foldl writeFile []

/-- `AgentLoader._fetch_and_save_agent(agent_id, dest_dir)`: raises when the
store is unreachable or the document is missing — both raises happen before
`shutil.rmtree`/`os.makedirs`, so the cache is untouched on error.  On
success the directory is deleted, recreated and rewritten from the fetched
files. -/
def fetch_and_save_agent (store : Store) (cache : Cache) (agent_id : String) :
    Cache × Option LoaderError :=
  if store.available = false then (cache, some .storeUnavailable)
  else
    match store.agents agent_id with
    | none => (cache, some (.notFound agent_id))
    | some files =>
        (fun id => if id = agent_id then some (writeFiles files) else cache id,
         none)

/-- `f.endswith(".py") and f != "__init__.py"` over the directory listing:
the candidate script names, in the directory's stable listing order. -/
def pyCandidates (dir : List FileData) : List String :=
  (dir.map FileData.name).filter
    (fun f => strEndsWith f ".py" && f != "__init__.py")

/-- `os.path.exists` for a named file of a directory. -/
def hasFile (dir : List FileData) (name : String) : Bool :=
  dir.any (fun g => g.name == name)

/-- `AgentLoader.get_agent_module(agent_id)`: fetch-and-save (its errors
propagate), then require `agent.yaml` to exist, then pick the first
`.py` file other than `__init__.py` as the script to import.  The model
returns the post-call cache and either the raised error or the selected
script name (the import of the selected script is outside the model). -/
def get_agent_module (store : Store) (cache : Cache) (agent_id : String) :
    Cache × Except LoaderError String :=
  match fetch_and_save_agent store cache agent_id with
  | (cache1, some e) => (cache1, .error e)
  | (cache1, none) =>
      let dir := (cache1 agent_id).getD []
      if hasFile dir "agent.yaml" = false then
        (cache1, .error (.descriptorMissing agent_id))
      else
        match pyCandidates dir with
        | [] => (cache1, .error (.noScript agent_id))
        | script :: _ => (cache1, .ok script)

/-! ## The execution harness contract check

Modelled from the spec: the Execution Harness (the HTTP `/execute` handler
of §4.5) is not among the repository files under `src/`; only its caller
(`src/test_agent.py`) and the loader it composes are.  Per §4.3 the binder
"fails with `ContractViolation` if the resulting unit does not expose all
three required capabilities (`graph`, `makeInitialState`, `extractResult`)",
and per §8 "binding a unit missing the `extractResult` capability fails
with `ContractViolation` and the run never reaches the workflow engine". -/

/-- Modelled from the spec: which of the three required capabilities the
module obtained from `get_agent_module` exposes (`hasattr`-style check on
`agent_graph`, `get_initial_state`, `get_result`). -/
structure BoundModule where
  has_graph : Bool
  has_get_initial_state : Bool
  has_get_result : Bool
deriving Repr, DecidableEq

/-- Modelled from the spec: the harness-level error for a module missing a
required capability. -/
inductive HarnessError where
  | contractViolation
deriving Repr, DecidableEq

/-- Modelled from the spec: the harness validates the bound module before
invoking the workflow engine; on a missing capability it fails with
`ContractViolation` and never invokes the engine.  The second component
records whether the engine was invoked. -/
def harness_execute (m : BoundModule) (runEngine : Unit → AgentResult) :
    Except HarnessError AgentResult × Bool :=
  if m.has_graph && m.has_get_initial_state && m.has_get_result then
    (.ok (runEngine ()), true)
  else (.error .contractViolation, false)

/-! ## Derived notions used by the statements -/

/-- The unique keys of a candidate list. -/
def usernames (cands : List Candidate) : List String :=
  cands.map Candidate.username

/-- One analyze step applied to a state whose work queue has been set to
`queue` (by whatever search rounds happened before), with `fetch` answering
the comment fetches of that run. -/
def analyzeRun (fetch : CommentOracle) (queue : List Thread)
    (s : AgentState) : AgentState :=
  let s1 := { s with threads_to_process := queue }
  applyAnalyze s1 (analyze_node fetch s1)

/-- An arbitrary finite sequence of analyze-step runs, each with its own
fetched comments and queued threads. -/
def analyzeRuns (runs : List (CommentOracle × List Thread))
    (s : AgentState) : AgentState :=
  runs.foldl (fun st r => analyzeRun r.1 r.2 st) s

/-! ## Concrete data for witnesses and counterexamples -/

/-- A concrete environment. -/
def wEnv : AgentEnv :=
  { reddit_client_id := "cid", reddit_client_secret := "csec" }

/-- A concrete thread. -/
def wThread : Thread :=
  { id := "t1", url := "https://reddit.com/r/s/t1", title := "T", subreddit := "s" }

/-- Oracles that always answer with no threads and no comments. -/
def silentOracles : Oracles := fun _ => (fun _ _ => [], fun _ => [])

/-- Default inputs used for the silent run. -/
def wInputs : AgentInputs := { query := "q", target_subreddits := ["s"] }

/-- The final state of the silent run (three empty rounds, stopped by the
iteration safety bound). -/
def wFinal : AgentState :=
  match runLoop silentOracles 3 0 (get_initial_state wEnv wInputs) with
  | some s => s
  | none => get_initial_state wEnv wInputs

/-- Inputs asking for at most one candidate, with threshold 1/2. -/
def cex6Inputs : AgentInputs :=
  { query := "q", target_subreddits := ["s"], max_users := 1,
    min_intent_score := mkRat 1 2 }

/-- Oracles for the over-shoot run: a single thread whose comments hold two
distinct qualifying authors. -/
def cex6Oracles : Oracles := fun _ =>
  (fun _ _ => [wThread],
   fun _ => [{ author := "uA", text := "willing to pay", thread_url := wThread.url },
             { author := "uB", text := "willing to pay", thread_url := wThread.url }])

/-- The final state of the over-shoot run. -/
def cex6Final : AgentState :=
  match runLoop cex6Oracles 3 0 (get_initial_state wEnv cex6Inputs) with
  | some s => s
  | none => get_initial_state wEnv cex6Inputs

/-- A concrete candidate already recorded with the low score 3/10. -/
def wCand : Candidate :=
  { username := "uA", intent_score := mkRat 3 10, subreddit := "s",
    thread_title := "Old", evidence := "meh", thread_url := "u0" }

/-- A state somewhere mid-run that already holds `wCand`. -/
def wState : AgentState :=
  { (get_initial_state wEnv cex6Inputs) with
      candidates := [wCand]
      visited_threads := ["u0"] }

/-- An analyze-run sequence in which the already-recorded author `uA`
qualifies again, now with score 19/20, and a fresh author `uB` qualifies
too; the same thread is queued twice. -/
def wRuns : List (CommentOracle × List Thread) :=
  [(fun _ => [{ author := "uA", text := "willing to pay", thread_url := wThread.url },
              { author := "uB", text := "willing to pay", thread_url := wThread.url }],
    [wThread, wThread])]

/-- Store contents of a stored agent: descriptor plus one script. -/
def wFiles : List FileData :=
  [{ name := "agent.yaml", content := "entry: scout.py" },
   { name := "scout.py", content := "def f(): pass" }]

/-- A reachable store that has no record for any agent id. -/
def cex1Store : Store := { available := true, agents := fun _ => none }

/-- A cache that already holds a complete entry for agent "A" from a prior
successful fetch. -/
def cex1Cache : Cache := fun id => if id = "A" then some wFiles else none

/-- Artifact set lacking the descriptor but holding one executable script. -/
def cex3Files : List FileData :=
  [{ name := "scout.py", content := "def f(): pass" }]

/-- A reachable store whose agent "B" has a script but no `agent.yaml`. -/
def cex3Store : Store :=
  { available := true, agents := fun id => if id = "B" then some cex3Files else none }

/-- An empty cache. -/
def emptyCache : Cache := fun _ => none

/-- Artifact set with a descriptor and two candidate scripts. -/
def w3Files : List FileData :=
  [{ name := "agent.yaml", content := "entry: a.py" },
   { name := "a.py", content := "def f(): pass" },
   { name := "b.py", content := "def g(): pass" }]

/-- A reachable store whose agent "C" has two candidate scripts. -/
def w3Store : Store :=
  { available := true, agents := fun id => if id = "C" then some w3Files else none }

/-- A bound module that exposes the graph and the state constructor but not
the result formatter. -/
def w2Module : BoundModule :=
  { has_graph := true, has_get_initial_state := true, has_get_result := false }

/-- A concrete engine invocation for the harness model. -/
def w2Engine : Unit → AgentResult := fun _ => get_result wState

/-! ## Lemmas: the analyze step only appends candidates -/

theorem processComment_eq_append (ms : Rat) (t : Thread) (cands : List Candidate)
    (c : Comment) : ∃ r, processComment ms t cands c = cands ++ r := by
  simp only [processComment]
  split
  · split
    · exact ⟨[], by simp⟩
    · exact ⟨_, rfl⟩
  · exact ⟨[], by simp⟩

theorem foldl_processComment_eq_append (ms : Rat) (t : Thread) :
    ∀ (cs : List Comment) (cands : List Candidate),
      ∃ r, cs.foldl (processComment ms t) cands = cands ++ r := by
  intro cs
  induction cs with
  | nil => exact fun cands => ⟨[], by simp⟩
  | cons c cs ih =>
      intro cands
      obtain ⟨r1, h1⟩ := processComment_eq_append ms t cands c
      obtain ⟨r2, h2⟩ := ih (processComment ms t cands c)
      exact ⟨r1 ++ r2, by rw [List.foldl_cons, h2, h1, List.append_assoc]⟩

theorem processThread_eq_append (fetch : CommentOracle) (ms : Rat)
    (acc : List String × List Candidate) (t : Thread) :
    ∃ r, (processThread fetch ms acc t).2 = acc.2 ++ r := by
  simp only [processThread]
  split
  · exact ⟨[], by simp⟩
  · exact foldl_processComment_eq_append ms t (fetch t.id) acc.2

theorem foldl_processThread_eq_append (fetch : CommentOracle) (ms : Rat) :
    ∀ (ts : List Thread) (acc : List String × List Candidate),
      ∃ r, (ts.foldl (processThread fetch ms) acc).2 = acc.2 ++ r := by
  intro ts
  induction ts with
  | nil => exact fun acc => ⟨[], by simp⟩
  | cons t ts ih =>
      intro acc
      obtain ⟨r1, h1⟩ := processThread_eq_append fetch ms acc t
      obtain ⟨r2, h2⟩ := ih (processThread fetch ms acc t)
      exact ⟨r1 ++ r2, by rw [List.foldl_cons, h2, h1, List.append_assoc]⟩

theorem analyze_node_candidates_eq_append (fetch : CommentOracle)
    (s : AgentState) :
    ∃ r, (analyze_node fetch s).candidates = s.candidates ++ r := by
  simp only [analyze_node]
  exact foldl_processThread_eq_append fetch s.min_intent_score
    s.threads_to_process (s.visited_threads.dedup, s.candidates)

theorem analyzeRun_candidates_eq_append (fetch : CommentOracle)
    (queue : List Thread) (s : AgentState) :
    ∃ r, (analyzeRun fetch queue s).candidates = s.candidates ++ r :=
  analyze_node_candidates_eq_append fetch { s with threads_to_process := queue }

theorem find?_append_of_find?_eq_some {p : Candidate → Bool}
    {l : List Candidate} {a : Candidate} (r : List Candidate)
    (h : l.find? p = some a) : (l ++ r).find? p = some a := by
  rw [List.find?_append, h]
  rfl

/-! ## Lemmas: the analyze step preserves uniqueness of usernames -/

theorem usernames_append_single (cands : List Candidate) (cd : Candidate)
    (hmem : cd.username ∉ usernames cands) (h : (usernames cands).Nodup) :
    (usernames (cands ++ [cd])).Nodup := by
  have he : usernames (cands ++ [cd]) = usernames cands ++ [cd.username] := by
    simp [usernames]
  rw [he]
  exact List.Nodup.append h (List.nodup_singleton _)
    (by simpa [List.disjoint_singleton] using hmem)

theorem processComment_nodup (ms : Rat) (t : Thread) (cands : List Candidate)
    (c : Comment) (h : (usernames cands).Nodup) :
    (usernames (processComment ms t cands c)).Nodup := by
  simp only [processComment]
  split
  · split
    · exact h
    · rename_i hany
      apply usernames_append_single cands _ _ h
      intro hmem
      obtain ⟨cd, hcd, he⟩ := List.mem_map.mp hmem
      have hany2 : (cands.any fun cd => cd.username == c.author) = false := by
        simpa using hany
      exact absurd (by simp [he] : (cd.username == c.author) = true)
        (by simpa using List.any_eq_false.mp hany2 cd hcd)
  · exact h

theorem foldl_processComment_nodup (ms : Rat) (t : Thread) :
    ∀ (cs : List Comment) (cands : List Candidate),
      (usernames cands).Nodup →
      (usernames (cs.foldl (processComment ms t) cands)).Nodup := by
  intro cs
  induction cs with
  | nil => exact fun cands h => h
  | cons c cs ih =>
      intro cands h
      exact ih (processComment ms t cands c) (processComment_nodup ms t cands c h)

theorem processThread_nodup (fetch : CommentOracle) (ms : Rat)
    (acc : List String × List Candidate) (t : Thread)
    (h : (usernames acc.2).Nodup) :
    (usernames (processThread fetch ms acc t).2).Nodup := by
  simp only [processThread]
  split
  · exact h
  · exact foldl_processComment_nodup ms t (fetch t.id) acc.2 h

theorem foldl_processThread_nodup (fetch : CommentOracle) (ms : Rat) :
    ∀ (ts : List Thread) (acc : List String × List Candidate),
      (usernames acc.2).Nodup →
      (usernames (ts.foldl (processThread fetch ms) acc).2).Nodup := by
  intro ts
  induction ts with
  | nil => exact fun acc h => h
  | cons t ts ih =>
      intro acc h
      exact ih (processThread fetch ms acc t) (processThread_nodup fetch ms acc t h)

theorem analyze_node_nodup (fetch : CommentOracle) (s : AgentState)
    (h : (usernames s.candidates).Nodup) :
    (usernames (analyze_node fetch s).candidates).Nodup := by
  simp only [analyze_node]
  exact foldl_processThread_nodup fetch s.min_intent_score
    s.threads_to_process (s.visited_threads.dedup, s.candidates) h

theorem analyzeRun_nodup (fetch : CommentOracle) (queue : List Thread)
    (s : AgentState) (h : (usernames s.candidates).Nodup) :
    (usernames (analyzeRun fetch queue s).candidates).Nodup :=
  analyze_node_nodup fetch { s with threads_to_process := queue } h

/-! ## Lemmas: the graph loop -/

theorem runRound_iteration (f : SearchOracle) (g : CommentOracle)
    (s : AgentState) : (runRound f g s).iteration = s.iteration + 1 := rfl

theorem check_conditions_complete_of_iteration (s : AgentState)
    (h : 3 < s.iteration) : (check_conditions_node s).is_complete = true := by
  by_cases h1 : s.max_users ≤ (s.candidates.length : Int)
  · simp [check_conditions_node, h1]
  · simp [check_conditions_node, h1, h]

theorem runRound_complete_of_iteration (f : SearchOracle) (g : CommentOracle)
    (s : AgentState) (h : 3 < s.iteration + 1) :
    (runRound f g s).is_complete = true :=
  check_conditions_complete_of_iteration _ h

theorem should_continue_eq_end (s : AgentState) :
    should_continue s = "end" ↔ s.is_complete = true := by
  simp only [should_continue]
  cases h : s.is_complete <;> simp

theorem runLoop_isSome (oracles : Oracles) :
    ∀ (fuel round : Nat) (s : AgentState),
      1 ≤ fuel → 3 < s.iteration + fuel →
      (runLoop oracles fuel round s).isSome = true := by
  intro fuel
  induction fuel with
  | zero => intro round s h1 _; exact absurd h1 (by omega)
  | succ n ih =>
      intro round s _ h3
      rw [runLoop]
      by_cases hc :
          should_continue (runRound (oracles round).1 (oracles round).2 s) = "end"
      · simp [hc]
      · simp only [if_neg hc]
        have hnc : (runRound (oracles round).1 (oracles round).2 s).is_complete
            = false := by
          cases hcomp : (runRound (oracles round).1 (oracles round).2 s).is_complete
          · rfl
          · exact absurd ((should_continue_eq_end _).mpr hcomp) hc
        have hle : ¬ 3 < s.iteration + 1 := by
          intro hgt
          rw [runRound_complete_of_iteration (oracles round).1 (oracles round).2
            s hgt] at hnc
          exact Bool.true_eq_false.mp hnc
        have hi : (runRound (oracles round).1 (oracles round).2 s).iteration
            = s.iteration + 1 := runRound_iteration _ _ _
        apply ih (round + 1)
        · omega
        · rw [hi]; push_cast at h3 ⊢; omega

theorem runLoop_iteration_ge (oracles : Oracles) :
    ∀ (fuel round : Nat) (s final : AgentState),
      runLoop oracles fuel round s = some final →
      s.iteration + 1 ≤ final.iteration := by
  intro fuel
  induction fuel with
  | zero => intro round s final h; exact absurd h (by simp [runLoop])
  | succ n ih =>
      intro round s final h
      rw [runLoop] at h
      by_cases hc :
          should_continue (runRound (oracles round).1 (oracles round).2 s) = "end"
      · rw [if_pos hc] at h
        have hfe := Option.some_inj.mp h
        rw [← hfe, runRound_iteration]
      · rw [if_neg hc] at h
        have := ih (round + 1) _ final h
        rw [runRound_iteration] at this
        omega

/-! ## Claim theorems -/

/-- Claim C1, counterexample: the cache already holds a complete entry for
agent "A" from a prior successful fetch, the store fetch fails with
not-found — and yet the load raises instead of proceeding with the cached
entry: there is no degraded-store fallback in `get_agent_module`. -/
theorem C1_counterexample :
    cex1Cache "A" = some wFiles ∧
    (get_agent_module cex1Store cex1Cache "A").2 =
      Except.error (LoaderError.notFound "A") :=
  ⟨rfl, rfl⟩

/-- Claim C1 (amended): if the store fetch fails (record not found, or the
store connection cannot be established), the load fails with that error
even when a cache entry for the identifier exists from a prior successful
fetch; the pre-existing entry is left unchanged but never used as a
fallback. -/
theorem C1_fetch_failure_always_fails (store : Store) (cache : Cache)
    (agent_id : String) (files : List FileData)
    (hcached : cache agent_id = some files)
    (hfail : store.available = false ∨ store.agents agent_id = none) :
    (get_agent_module store cache agent_id).1 = cache ∧
    ∃ e, (get_agent_module store cache agent_id).2 = Except.error e := by
  rcases hfail with hf | hf
  · simp [get_agent_module, fetch_and_save_agent, hf]
  · cases hav : store.available
    · simp [get_agent_module, fetch_and_save_agent, hav]
    · simp [get_agent_module, fetch_and_save_agent, hav, hf]

/-- Witness for the amended claim C1 at a concrete store and cache. -/
theorem C1_fetch_failure_always_fails_witness :
    (get_agent_module cex1Store cex1Cache "A").1 = cex1Cache ∧
    ∃ e, (get_agent_module cex1Store cex1Cache "A").2 = Except.error e :=
  C1_fetch_failure_always_fails cex1Store cex1Cache "A" wFiles rfl (Or.inr rfl)

/-- Claim C2: a bound unit that does not expose all three required
capabilities makes the harness fail with `ContractViolation`, and the
workflow engine is never invoked for that call (the second component of
`harness_execute` records whether the engine ran). -/
theorem C2_contract_violation (m : BoundModule) (runEngine : Unit → AgentResult)
    (h : (m.has_graph && m.has_get_initial_state && m.has_get_result) = false) :
    harness_execute m runEngine =
      (Except.error HarnessError.contractViolation, false) := by
  simp [harness_execute, h]

/-- Witness for claim C2: a module missing exactly the result formatter. -/
theorem C2_contract_violation_witness :
    harness_execute w2Module w2Engine =
      (Except.error HarnessError.contractViolation, false) :=
  C2_contract_violation w2Module w2Engine rfl

/-- Claim C3, counterexample: a cached entry holding an executable script
but no descriptor file — the binder raises a file-not-found error instead
of falling back to the first executable source file. -/
theorem C3_counterexample :
    pyCandidates (writeFiles cex3Files) = ["scout.py"] ∧
    (get_agent_module cex3Store emptyCache "B").2 =
      Except.error (LoaderError.descriptorMissing "B") :=
  ⟨rfl, rfl⟩

/-- Claim C3 (amended): the binder requires the descriptor file
`agent.yaml` to be present, failing when it is absent; when it is present
the binder ignores its contents and deterministically selects the first
`.py` file (other than `__init__.py`) in the stable listing order, also
when multiple candidate source files exist. -/
theorem C3_descriptor_required_first_script (store : Store) (cache : Cache)
    (agent_id : String) (files : List FileData)
    (hav : store.available = true)
    (hf : store.agents agent_id = some files) :
    (hasFile (writeFiles files) "agent.yaml" = false →
      (get_agent_module store cache agent_id).2 =
        Except.error (LoaderError.descriptorMissing agent_id)) ∧
    (∀ script rest, hasFile (writeFiles files) "agent.yaml" = true →
      pyCandidates (writeFiles files) = script :: rest →
      (get_agent_module store cache agent_id).2 = Except.ok script) := by
  constructor
  · intro hy
    simp [get_agent_module, fetch_and_save_agent, hav, hf, hy]
  · intro script rest hy hp
    simp [get_agent_module, fetch_and_save_agent, hav, hf, hy, hp]

/-- Witness for the amended claim C3: with two candidate scripts the
binder picks the first one in listing order. -/
theorem C3_descriptor_required_first_script_witness :
    (get_agent_module w3Store emptyCache "C").2 = Except.ok "a.py" :=
  (C3_descriptor_required_first_script w3Store emptyCache "C" w3Files rfl
    rfl).2 "a.py" ["b.py"] rfl rfl

/-- Claim C4: starting from any state whose candidates have pairwise
distinct usernames, any finite sequence of analyze-step runs — each with
arbitrary queued threads and arbitrary fetched comments, reprocessing
allowed — never produces two candidates with the same username. -/
theorem C4_candidate_uniqueness (runs : List (CommentOracle × List Thread))
    (s : AgentState) (h : (usernames s.candidates).Nodup) :
    (usernames (analyzeRuns runs s).candidates).Nodup := by
  induction runs generalizing s with
  | nil => exact h
  | cons r rs ih => exact ih _ (analyzeRun_nodup r.1 r.2 s h)

/-- Witness for claim C4 at a concrete state and run sequence. -/
theorem C4_candidate_uniqueness_witness :
    (usernames wState.candidates).Nodup ∧
    (usernames (analyzeRuns wRuns wState).candidates).Nodup :=
  ⟨by decide, C4_candidate_uniqueness wRuns wState (by decide)⟩

/-- Claim C5: for every oracle sequence (hence for every target count and
every search/analyze response), the search→analyze→check loop started from
the initial state halts within 3 rounds: the check step sets the
completion flag once the candidate count reaches `max_users` or the
iteration counter exceeds the fixed safety bound, and the router then
directs execution to the terminal marker. -/
theorem C5_termination (oracles : Oracles) (env : AgentEnv)
    (inputs : AgentInputs) :
    (runLoop oracles 3 0 (get_initial_state env inputs)).isSome = true :=
  runLoop_isSome oracles 3 0 (get_initial_state env inputs) (by omega)
    (by show (3 : Int) < 1 + (3 : Nat); norm_num)

/-- Claim C6, counterexample: a run requested with `max_users = 1` whose
single analyze batch appends two qualifying candidates — the final
result's candidate list has length 2, exceeding the requested target
count, because `analyze_node` never caps its appends. -/
theorem C6_counterexample :
    cex6Inputs.max_users = 1 ∧
    runLoop cex6Oracles 3 0 (get_initial_state wEnv cex6Inputs) =
      some cex6Final ∧
    (get_result cex6Final).candidates.length = 2 := by
  refine ⟨rfl, by decide, by decide⟩

/-- Claim C6 (amended): for every successful run the final result's
candidates list has length at least 0 — but it may exceed the requested
target count — and the reported metadata iteration count is at least 1. -/
theorem C6_result_iterations_ge_one (oracles : Oracles) (env : AgentEnv)
    (inputs : AgentInputs) (fuel : Nat) (final : AgentState)
    (h : runLoop oracles fuel 0 (get_initial_state env inputs) = some final) :
    0 ≤ (get_result final).candidates.length ∧
    1 ≤ (get_result final).metadata.iterations := by
  refine ⟨Nat.zero_le _, ?_⟩
  have hge := runLoop_iteration_ge oracles fuel 0 (get_initial_state env inputs)
    final h
  have h1 : (get_initial_state env inputs).iteration = 1 := rfl
  simp only [get_result]
  omega

/-- Witness for the amended claim C6: the silent run that stops via the
iteration safety bound still reports at least one iteration. -/
theorem C6_result_iterations_ge_one_witness :
    0 ≤ (get_result wFinal).candidates.length ∧
    1 ≤ (get_result wFinal).metadata.iterations :=
  C6_result_iterations_ge_one silentOracles wEnv wInputs 3 wFinal (by decide)

/-- Claim C7: for every agent identifier with no record in a reachable
store, the load fails with the not-found error and performs no cache
write: the cache state after the call is exactly the cache state before
it, including any pre-existing entry for that identifier. -/
theorem C7_not_found_no_cache_write (store : Store) (cache : Cache)
    (agent_id : String) (hav : store.available = true)
    (hnone : store.agents agent_id = none) :
    get_agent_module store cache agent_id =
      (cache, Except.error (LoaderError.notFound agent_id)) := by
  simp [get_agent_module, fetch_and_save_agent, hav, hnone]

/-- Witness for claim C7 at a concrete store and a pre-populated cache. -/
theorem C7_not_found_no_cache_write_witness :
    get_agent_module cex1Store cex1Cache "Z" =
      (cex1Cache, Except.error (LoaderError.notFound "Z")) :=
  C7_not_found_no_cache_write cex1Store cex1Cache "Z" rfl rfl

/-- Claim C8: candidate de-duplication is first-write-wins — whenever a
username already has an entry in the candidates list, any sequence of
analyze-step runs (in which the same username may qualify again with a
different score) leaves that first entry in place, never overwritten or
re-scored. -/
theorem C8_first_write_wins (runs : List (CommentOracle × List Thread))
    (s : AgentState) (u : String) (cd : Candidate)
    (h : s.candidates.find? (fun c => c.username == u) = some cd) :
    (analyzeRuns runs s).candidates.find? (fun c => c.username == u) =
      some cd := by
  induction runs generalizing s with
  | nil => exact h
  | cons r rs ih =>
      apply ih
      obtain ⟨rest, hr⟩ := analyzeRun_candidates_eq_append r.1 r.2 s
      rw [hr]
      exact find?_append_of_find?_eq_some rest h

/-- Witness for claim C8: the author "uA" is already stored with score
3/10; in the run it qualifies again with score 19/20, yet the stored entry
keeps the first score. -/
theorem C8_first_write_wins_witness :
    (analyzeRuns wRuns wState).candidates.find?
      (fun c => c.username == "uA") = some wCand :=
  C8_first_write_wins wRuns wState "uA" wCand rfl

/-- Claim C9: for every final state the result formatter returns status
"success" (there is no other status), reports `metadata.iterations` equal
to the state's iteration counter minus one, and
`metadata.visited_threads_count` equal to the length of the visited
list. -/
theorem C9_get_result_shape (s : AgentState) :
    (get_result s).status = "success" ∧
    (get_result s).metadata.iterations = s.iteration - 1 ∧
    (get_result s).metadata.visited_threads_count =
      s.visited_threads.length :=
  ⟨rfl, rfl, rfl⟩

/-- Claim C10: a search step's update contains exactly the fields
`threads_to_process` and `iteration` (the type of `search_node` fixes
this), the new iteration is the old one plus 1, and under the engine's
shallow merge every other field of the state is unchanged. -/
theorem C10_search_frame (f : SearchOracle) (s : AgentState) :
    search_node f s =
      { threads_to_process :=
          s.target_subreddits.flatMap (fun sub => f s.query sub)
        iteration := s.iteration + 1 } ∧
    (applySearch s (search_node f s)).iteration = s.iteration + 1 ∧
    (applySearch s (search_node f s)).candidates = s.candidates ∧
    (applySearch s (search_node f s)).visited_threads = s.visited_threads ∧
    (applySearch s (search_node f s)).is_complete = s.is_complete ∧
    (applySearch s (search_node f s)).query = s.query ∧
    (applySearch s (search_node f s)).target_subreddits =
      s.target_subreddits ∧
    (applySearch s (search_node f s)).max_users = s.max_users ∧
    (applySearch s (search_node f s)).min_intent_score =
      s.min_intent_score ∧
    (applySearch s (search_node f s)).reddit_creds = s.reddit_creds :=
  ⟨rfl, rfl, rfl, rfl, rfl, rfl, rfl, rfl, rfl, rfl⟩
